import Mathlib

/-!
Verification of weather_max.py (TR1N1TY94/weather_max).

Shallow embedding of the temperature-change notification engine:
the per-city history entries (`temperature_history` / `climate_temperature_history`
values), the two change detectors `notify_temperature_change` and
`notify_climate_temperature_change`, the climate-report line parser of
`fetch_climate_report`, and the per-city climate portion of the `main` loop.

Modelling conventions:
* Live (ASOS) temperatures are Python int/float values, modelled as `ℚ`;
  climate-report temperatures arise from Python `int(...)`, modelled as `ℤ`.
* UTC timestamps are modelled as integer seconds (`Int`); the elapsed
  `time_diff` of the source is then `now - previous_timestamp` in seconds, the
  window `timedelta(minutes=5)` is `300` seconds, and the displayed
  `int(time_diff.total_seconds() // 60)` is `Int.fdiv diff 60` (Python `//`
  is floor division, also on negative values).
* The global mutable dictionaries are modelled by explicit state passing: each
  detector takes its city's history entry and returns the updated entry,
  together with the returned annotation string and the notification side
  effect (payload `(new value, old value)` of the `send_notification` call, or
  `none` when no notification is sent).
* A non-numeric live reading (the `isinstance` check of line 295 failing) is
  modelled as `none`; the climate reading is the `Option String` handed to
  `int(...)`, whose conversion is modelled by `pyIntOfOptStr`.
-/

namespace WeatherMax

/-- One value of `temperature_history` / `climate_temperature_history`
(source lines 86-102): the fields `temp`, `timestamp`, `last_notified_temp`,
each initially `None`. -/
structure Entry (α : Type) where
  temp : Option α
  timestamp : Option Int
  last_notified_temp : Option α
deriving DecidableEq, Repr

/-- The all-`None` entry every city starts with (source lines 86-102). -/
def init_entry {α : Type} : Entry α := ⟨none, none, none⟩

/-- Well-formedness of an entry: `temp` and `timestamp` are set together.
Every reachable entry satisfies this; on an entry with `temp` set but
`timestamp` absent the source would raise `TypeError` when it computes
`datetime.now(timezone.utc) - previous_timestamp`. -/
def entryWF {α : Type} (e : Entry α) : Prop := e.temp.isSome → e.timestamp.isSome

instance entryWF_dec {α : Type} (e : Entry α) : Decidable (entryWF e) :=
  inferInstanceAs (Decidable (e.temp.isSome → e.timestamp.isSome))

/-- The live detector's window `timedelta(minutes=5)` (source line 304), in seconds. -/
def notifyWindow_live : Int := 5 * 60

/-- The climate detector's window `timedelta(minutes=5)` (source line 344), in seconds. -/
def notifyWindow_climate : Int := 5 * 60

/-- The live detector's terminal suffix
`f"(^ from {previous_temp}°F in last {int(time_diff.total_seconds() // 60)} minutes)"`
(source line 306). -/
def increase_suffix (prev : ℚ) (mins : Int) : String :=
  "(^ from " ++ toString prev ++ "°F in last " ++ toString mins ++ " minutes)"

/-- The climate detector's terminal suffix
`f"(Climate: ^ from {previous_temp} in last {int(time_diff.total_seconds() // 60)} minutes)"`
(source line 349). -/
def climate_suffix (prev : Int) (mins : Int) : String :=
  "(Climate: ^ from " ++ toString prev ++ " in last " ++ toString mins ++ " minutes)"

/-- Python `str.upper()` (the Lean core `String.toUpper` recurses over byte
positions and does not kernel-evaluate, so the map is taken over the
character list). -/
def pyUpper (s : String) : String := String.mk (s.toList.map Char.toUpper)

/-- Value of a pure-digit character list, `none` if empty or not all digits. -/
def digitsVal : List Char → Option Nat
  | [] => none
  | cs =>
    if cs.all Char.isDigit then
      some (cs.foldl (fun a c => 10 * a + (c.toNat - 48)) 0)
    else none

/-- Python `str.strip()`: drop whitespace from both ends. -/
def pyStrip (cs : List Char) : List Char :=
  ((cs.dropWhile Char.isWhitespace).reverse.dropWhile Char.isWhitespace).reverse

/-- Python `int(s)` on a string: optional surrounding whitespace, optional
sign, then decimal digits; any other shape raises `ValueError`, modelled as
`none`. -/
def pyIntOfString (s : String) : Option Int :=
  match pyStrip s.toList with
  | '-' :: cs => (digitsVal cs).map (fun n => -(n : Int))
  | '+' :: cs => (digitsVal cs).map (fun n => (n : Int))
  | cs => (digitsVal cs).map (fun n => (n : Int))

/-- Python `int(x)` where `x` is a string or `None` (`TypeError` on `None`),
as in source lines 334-337. -/
def pyIntOfOptStr : Option String → Option Int
  | none => none
  | some s => pyIntOfString s

/-- Whitespace tokenizer: accumulates the current token (reversed) and cuts
at whitespace runs. -/
def tokensAux : List Char → List Char → List (List Char)
  | [], acc => if acc.isEmpty then [] else [acc.reverse]
  | c :: t, acc =>
    if c.isWhitespace then
      if acc.isEmpty then tokensAux t [] else acc.reverse :: tokensAux t []
    else tokensAux t (c :: acc)

/-- Python `str.split()` with no arguments: split on whitespace runs,
dropping empty pieces. -/
def pySplit (s : String) : List String :=
  (tokensAux s.toList []).map String.mk

/-- Python `str.isdigit()` (restricted to the ASCII digits that occur in the
reports): nonempty and all digits. -/
def pyIsDigit (s : String) : Bool :=
  !s.toList.isEmpty && s.toList.all Char.isDigit

/-- Python `needle in haystack` on character lists. -/
def listContains (n : List Char) : List Char → Bool
  | [] => n.isEmpty
  | c :: t => n.isPrefixOf (c :: t) || listContains n t

/-- The source's test `"MAXIMUM" in line.upper()` (line 231). -/
def containsMaximum (line : String) : Bool :=
  listContains "MAXIMUM".toList (pyUpper line).toList

/-- The source's `re.match(r"\d{1,2}:\d{2}", time_str)` (line 243): a prefix
of one or two digits, a colon, then two digits. -/
def matches_time_re (s : String) : Bool :=
  match s.toList with
  | a :: b :: c :: d :: e :: _ =>
      (a.isDigit && b.isDigit && c == ':' && d.isDigit && e.isDigit)
      || (a.isDigit && b == ':' && c.isDigit && d.isDigit)
  | [a, b, c, d] => a.isDigit && b == ':' && c.isDigit && d.isDigit
  | _ => false

/-- The colon insertion of source lines 246-252: `'736' -> '7:36'`,
`'1136' -> '11:36'`, anything else unchanged. -/
def insert_colon (s : String) : String :=
  match s.toList with
  | [a, b, c] => String.mk [a, ':', b, c]
  | [a, b, c, d] => String.mk [a, b, ':', c, d]
  | _ => s

/-- Extraction from one report line (source lines 232-254): requires more
than 3 whitespace tokens, first token `MAXIMUM` (case-insensitive), second
token numeric; the fourth token, uppercased, is the AM/PM marker, absent
otherwise; the third token is the time, normalised by `insert_colon` unless
it already matches the colon regex. -/
def parse_max_line (line : String) : Option String × Option String :=
  match pySplit line with
  | p0 :: p1 :: p2 :: p3 :: _ =>
    if pyUpper p0 == "MAXIMUM" && pyIsDigit p1 then
      if pyUpper p3 == "AM" || pyUpper p3 == "PM" then
        if matches_time_re p2 then (some p1, some (p2 ++ " " ++ pyUpper p3))
        else (some p1, some (insert_colon p2 ++ " " ++ pyUpper p3))
      else (some p1, none)
    else (none, none)
  | _ => (none, none)

/-- The parsing loop of `fetch_climate_report` (source lines 230-258) over
the report's lines: the loop `break`s at the first line containing the
substring `MAXIMUM` (case-insensitively), whether or not that line yields a
temperature; later lines are never examined. The HTTP fetch and
`splitlines` that produce the line list are I/O plumbing outside the model. -/
def fetch_climate_report : List String → Option String × Option String
  | [] => (none, none)
  | line :: rest =>
    if containsMaximum line then parse_max_line line
    else fetch_climate_report rest

/-- `notify_temperature_change` (source lines 284-321) for one city: takes
the city's history entry, the incoming reading (`none` when not an
int/float) and the current UTC time; returns the updated entry, the returned
terminal suffix, and the notification payload `(current, previous)` when
`send_notification` is called. The `some pt, none` history case is
unreachable from reachable states (see `entryWF`); there the source would
raise at line 303, modelled as the no-increase path. -/
def notify_temperature_change (prev : Entry ℚ) (current_temp : Option ℚ) (now : Int) :
    Entry ℚ × String × Option (ℚ × ℚ) :=
  match current_temp with
  | none => (prev, "", none)
  | some cur =>
    match prev.temp, prev.timestamp with
    | some pt, some pts =>
      if pt < cur then
        if now - pts ≤ notifyWindow_live then
          if some cur ≠ prev.last_notified_temp then
            (⟨some cur, some now, some cur⟩,
             increase_suffix pt (Int.fdiv (now - pts) 60), some (cur, pt))
          else
            (⟨some cur, some now, prev.last_notified_temp⟩,
             increase_suffix pt (Int.fdiv (now - pts) 60), none)
        else (⟨some cur, some now, prev.last_notified_temp⟩, "", none)
      else (⟨some cur, some now, prev.last_notified_temp⟩, "", none)
    | some _, none => (⟨some cur, some now, prev.last_notified_temp⟩, "", none)
    | none, _ => (⟨some cur, some now, prev.last_notified_temp⟩, "", none)

/-- `notify_climate_temperature_change` (source lines 323-355) for one city:
takes the entry, the fetched climate max (a string, or `none`) and the
current UTC time. When the notification fires the source `return`s at line
349 before the history update of lines 351-353, so the entry keeps its old
`temp` and `timestamp` and only `last_notified_temp` changes. The
`some pt, none` history case is unreachable (see `entryWF`); there the
source would raise at line 343, modelled as the update path. -/
def notify_climate_temperature_change (prev : Entry Int) (current_temp : Option String)
    (now : Int) : Entry Int × String × Option (Int × Int) :=
  match pyIntOfOptStr current_temp with
  | none => (prev, "", none)
  | some v =>
    match prev.temp, prev.timestamp with
    | some pt, some pts =>
      if pt < v ∧ some v ≠ prev.last_notified_temp then
        if now - pts ≤ notifyWindow_climate then
          (⟨prev.temp, prev.timestamp, some v⟩,
           climate_suffix pt (Int.fdiv (now - pts) 60), some (v, pt))
        else (⟨some v, some now, prev.last_notified_temp⟩, "", none)
      else (⟨some v, some now, prev.last_notified_temp⟩, "", none)
    | some _, none => (⟨some v, some now, prev.last_notified_temp⟩, "", none)
    | none, _ => (⟨some v, some now, prev.last_notified_temp⟩, "", none)

/-- Python truthiness of the `Option String` values tested by
`if climate_max and climate_time:` (source line 382). -/
def pyTruthy : Option String → Bool
  | none => false
  | some s => !s.toList.isEmpty

/-- The climate portion of one `main`-loop cycle for one city (source lines
379-384): parse the report; only when both the max temperature and the time
are truthy is `notify_climate_temperature_change` invoked; otherwise the
entry is untouched and the climate annotation stays empty. -/
def main_climate_step (entry : Entry Int) (report_lines : List String) (now : Int) :
    Entry Int × String × Option (Int × Int) :=
  let r := fetch_climate_report report_lines
  if pyTruthy r.1 && pyTruthy r.2 then
    notify_climate_temperature_change entry r.1 now
  else (entry, "", none)

/-- Traces of the live history entry of one city: the list of states the
entry goes through (most recent first), starting from the all-`None` entry
and stepping by `notify_temperature_change` invocations. -/
inductive liveTrace : List (Entry ℚ) → Prop
  | base : liveTrace [init_entry]
  | step (e : Entry ℚ) (tr : List (Entry ℚ)) (cur : Option ℚ) (now : Int) :
      liveTrace (e :: tr) →
      liveTrace ((notify_temperature_change e cur now).1 :: e :: tr)

/-- Traces of the climate history entry of one city, stepping by
`notify_climate_temperature_change` invocations. -/
inductive climateTrace : List (Entry Int) → Prop
  | base : climateTrace [init_entry]
  | step (e : Entry Int) (tr : List (Entry Int)) (cur : Option String) (now : Int) :
      climateTrace (e :: tr) →
      climateTrace ((notify_climate_temperature_change e cur now).1 :: e :: tr)

/-! Helper lemmas shared by several results. -/

/-- The live terminal suffix is never the empty string. -/
theorem increase_suffix_ne_empty (p : ℚ) (m : Int) : increase_suffix p m ≠ "" := by
  intro h
  have h2 : (increase_suffix p m).length = 0 := by rw [h]; rfl
  have h3 : ("(^ from " : String).length = 8 := rfl
  simp only [increase_suffix, String.length_append] at h2
  omega

/-- The climate terminal suffix is never the empty string. -/
theorem climate_suffix_ne_empty (p m : Int) : climate_suffix p m ≠ "" := by
  intro h
  have h2 : (climate_suffix p m).length = 0 := by rw [h]; rfl
  have h3 : ("(Climate: ^ from " : String).length = 17 := rfl
  simp only [climate_suffix, String.length_append] at h2
  omega

/-- Core dedupe behaviour of the live detector: a strict in-window increase
whose value equals `last_notified_temp` yields the suffix but no
notification, and keeps `last_notified_temp`. -/
theorem live_dedupe_aux (e : Entry ℚ) (pt v : ℚ) (pts now : Int)
    (h1 : e.temp = some pt) (h2 : e.timestamp = some pts) (h3 : pt < v)
    (h4 : now - pts ≤ notifyWindow_live) (h5 : e.last_notified_temp = some v) :
    (notify_temperature_change e (some v) now).2.2 = none ∧
    (notify_temperature_change e (some v) now).2.1
      = increase_suffix pt (Int.fdiv (now - pts) 60) ∧
    (notify_temperature_change e (some v) now).2.1 ≠ "" ∧
    (notify_temperature_change e (some v) now).1.last_notified_temp = some v := by
  have hne := increase_suffix_ne_empty pt (Int.fdiv (now - pts) 60)
  simp only [notify_temperature_change, h1, h2, h5]
  simp [h3, h4, hne]

/-- One live invocation on a numeric reading always stores the reading as
`temp`, and either records it as `last_notified_temp` (when it notifies) or
leaves `last_notified_temp` untouched. -/
theorem live_step_cases (e : Entry ℚ) (c : ℚ) (now : Int) :
    (notify_temperature_change e (some c) now).1.temp = some c ∧
    ((notify_temperature_change e (some c) now).1.last_notified_temp = some c ∨
     (notify_temperature_change e (some c) now).1.last_notified_temp
        = e.last_notified_temp) := by
  cases h1 : e.temp <;> cases h2 : e.timestamp <;>
    simp only [notify_temperature_change, h1, h2] <;>
    repeat' first | split | simp

/-! Claim results. -/

/-- C1 counterexample: the climate detector does not always refresh history.
From the reachable entry `⟨some 70, some 0, none⟩`, the valid reading "75"
at time 60 fires a notification, yet the stored temperature stays `70` and
the stored timestamp stays `0` (the source `return`s at line 349 before the
update of lines 351-353), contradicting the claim that after the invocation
the stored temperature equals the new reading and the timestamp the current
time. -/
theorem climate_history_not_updated_cex :
    pyIntOfOptStr (some "75") = some 75 ∧
    (notify_climate_temperature_change ⟨some 70, some 0, none⟩ (some "75") 60).2.2
      = some (75, 70) ∧
    (notify_climate_temperature_change ⟨some 70, some 0, none⟩ (some "75") 60).1.temp
      = some 70 ∧
    (notify_climate_temperature_change ⟨some 70, some 0, none⟩ (some "75") 60).1.timestamp
      = some 0 := by decide

/-- C1 (amended): on a valid numeric reading the live detector always stores
the reading and the current time in history; the climate detector does so
exactly when no notification fires, and when a notification fires it leaves
`temp` and `timestamp` unchanged, updating only `last_notified_temp`. -/
theorem history_update_amended :
    (∀ (e : Entry ℚ) (v : ℚ) (now : Int), entryWF e →
      ((notify_temperature_change e (some v) now).1.temp = some v ∧
       (notify_temperature_change e (some v) now).1.timestamp = some now)) ∧
    (∀ (ec : Entry Int) (s : Option String) (v : Int) (now : Int), entryWF ec →
      pyIntOfOptStr s = some v →
      (notify_climate_temperature_change ec s now).2.2 = none →
      ((notify_climate_temperature_change ec s now).1.temp = some v ∧
       (notify_climate_temperature_change ec s now).1.timestamp = some now)) ∧
    (∀ (ec : Entry Int) (s : Option String) (v : Int) (now : Int), entryWF ec →
      pyIntOfOptStr s = some v →
      (notify_climate_temperature_change ec s now).2.2 ≠ none →
      ((notify_climate_temperature_change ec s now).1.temp = ec.temp ∧
       (notify_climate_temperature_change ec s now).1.timestamp = ec.timestamp ∧
       (notify_climate_temperature_change ec s now).1.last_notified_temp = some v)) := by
  refine ⟨?_, ?_, ?_⟩
  · intro e v now _
    cases h1 : e.temp <;> cases h2 : e.timestamp <;>
      simp only [notify_temperature_change, h1, h2] <;>
      repeat' first | split | simp
  · intro ec s v now _ hs hn
    cases h1 : ec.temp <;> cases h2 : ec.timestamp <;>
      simp only [notify_climate_temperature_change, hs, h1, h2] at hn ⊢ <;>
      repeat' first | split | simp_all
  · intro ec s v now _ hs hn
    cases h1 : ec.temp <;> cases h2 : ec.timestamp <;>
      simp only [notify_climate_temperature_change, hs, h1, h2] at hn ⊢ <;>
      repeat' first | split | simp_all

/-- C1 witness: the amended statement at concrete entries, readings and
times, all hypotheses discharged by evaluation. -/
theorem history_update_amended_witness :
    ((notify_temperature_change ⟨some 60, some 0, none⟩ (some 70) 5).1.temp = some 70 ∧
     (notify_temperature_change ⟨some 60, some 0, none⟩ (some 70) 5).1.timestamp = some 5) ∧
    ((notify_climate_temperature_change ⟨some 80, some 0, none⟩ (some "75") 5).1.temp
        = some 75 ∧
     (notify_climate_temperature_change ⟨some 80, some 0, none⟩ (some "75") 5).1.timestamp
        = some 5) ∧
    ((notify_climate_temperature_change ⟨some 70, some 0, none⟩ (some "75") 60).1.temp
        = some 70 ∧
     (notify_climate_temperature_change ⟨some 70, some 0, none⟩ (some "75") 60).1.timestamp
        = some 0 ∧
     (notify_climate_temperature_change ⟨some 70, some 0, none⟩
        (some "75") 60).1.last_notified_temp = some 75) :=
  ⟨history_update_amended.1 ⟨some 60, some 0, none⟩ 70 5 (by decide),
   history_update_amended.2.1 ⟨some 80, some 0, none⟩ (some "75") 75 5
     (by decide) (by decide) (by decide),
   history_update_amended.2.2 ⟨some 70, some 0, none⟩ (some "75") 75 60
     (by decide) (by decide) (by decide)⟩

/-- C2 counterexample: starting from the reachable live entry
`⟨some 70, some 0, none⟩`, the reading 75 at time 60 notifies
(`last_notified_temp := 75`); the reading 70 at time 120 drops below 75 and
is stored; the reading 75 at time 180 rises above the stored 70 back to
exactly 75 within the window — yet no notification fires (the annotation is
produced), because `last_notified_temp` still equals 75. -/
theorem renotify_same_value_cex :
    (notify_temperature_change ⟨some 70, some 0, none⟩ (some 75) 60).1.last_notified_temp
      = some 75 ∧
    (notify_temperature_change
        (notify_temperature_change ⟨some 70, some 0, none⟩ (some 75) 60).1
        (some 70) 120).1.temp = some 70 ∧
    (notify_temperature_change
        (notify_temperature_change ⟨some 70, some 0, none⟩ (some 75) 60).1
        (some 70) 120).1.last_notified_temp = some 75 ∧
    (notify_temperature_change
        (notify_temperature_change
          (notify_temperature_change ⟨some 70, some 0, none⟩ (some 75) 60).1
          (some 70) 120).1
        (some 75) 180).2.2 = none ∧
    (notify_temperature_change
        (notify_temperature_change
          (notify_temperature_change ⟨some 70, some 0, none⟩ (some 75) 60).1
          (some 70) 120).1
        (some 75) 180).2.1 ≠ "" := by decide

/-- C2 (amended): after a genuine drop (a reading `W` with `W < V` and not
above the stored temperature) the dedupe record still holds `V`, so a later
in-window rise back to exactly `V` produces the display annotation but no
new notification; re-notification at exactly the previously notified value
never happens while `last_notified_temp = V`. -/
theorem renotify_suppressed_amended (e0 : Entry ℚ) (V W pt0 : ℚ) (t1 t2 : Int)
    (hV : e0.last_notified_temp = some V) (h0 : e0.temp = some pt0)
    (hWV : W < V) (hW : W ≤ pt0) (hwin : t2 - t1 ≤ notifyWindow_live) :
    (notify_temperature_change (notify_temperature_change e0 (some W) t1).1
        (some V) t2).2.2 = none ∧
    (notify_temperature_change (notify_temperature_change e0 (some W) t1).1
        (some V) t2).2.1 = increase_suffix W (Int.fdiv (t2 - t1) 60) ∧
    (notify_temperature_change (notify_temperature_change e0 (some W) t1).1
        (some V) t2).2.1 ≠ "" := by
  have hnlt : ¬ pt0 < W := not_lt.mpr hW
  have he1 : (notify_temperature_change e0 (some W) t1).1 = ⟨some W, some t1, some V⟩ := by
    cases h2 : e0.timestamp <;> simp [notify_temperature_change, h0, h2, hV, hnlt]
  rw [he1]
  have h := live_dedupe_aux ⟨some W, some t1, some V⟩ W V t1 t2 rfl rfl hWV hwin rfl
  exact ⟨h.1, h.2.1, h.2.2.1⟩

/-- C2 witness: the amended statement at a concrete drop-then-rise run. -/
theorem renotify_suppressed_amended_witness :
    (notify_temperature_change
        (notify_temperature_change ⟨some 72, some 0, some 75⟩ (some 70) 10).1
        (some 75) 60).2.2 = none ∧
    (notify_temperature_change
        (notify_temperature_change ⟨some 72, some 0, some 75⟩ (some 70) 10).1
        (some 75) 60).2.1 = increase_suffix 70 (Int.fdiv (60 - 10) 60) ∧
    (notify_temperature_change
        (notify_temperature_change ⟨some 72, some 0, some 75⟩ (some 70) 10).1
        (some 75) 60).2.1 ≠ "" :=
  renotify_suppressed_amended ⟨some 72, some 0, some 75⟩ 75 70 72 10 60
    rfl rfl (by decide) (by decide) (by decide)

/-- C3 counterexample: a reachable climate trace (readings "70" at time 0,
then "75" at time 60) whose final entry has `last_notified_temp = some 75`
although no state of the trace ever stored 75 as the entry's temperature —
the notifying invocation returns before the history update. -/
theorem climate_last_notified_never_stored_cex :
    climateTrace
      [(notify_climate_temperature_change
          ((notify_climate_temperature_change init_entry (some "70") 0).1) (some "75") 60).1,
        (notify_climate_temperature_change init_entry (some "70") 0).1,
        init_entry] ∧
    (notify_climate_temperature_change
        ((notify_climate_temperature_change init_entry (some "70") 0).1)
        (some "75") 60).1.last_notified_temp = some 75 ∧
    ∀ e ∈ [(notify_climate_temperature_change
          ((notify_climate_temperature_change init_entry (some "70") 0).1) (some "75") 60).1,
        (notify_climate_temperature_change init_entry (some "70") 0).1,
        (init_entry : Entry Int)], e.temp ≠ some 75 := by
  refine ⟨climateTrace.step _ _ _ _ (climateTrace.step _ _ _ _ climateTrace.base),
    by decide, by decide⟩

/-- C3 (amended): the invariant holds for the live history store — in every
reachable live trace, whenever an entry's `last_notified_temp` is present it
equals a value that some state of the trace stores as the entry's
temperature (the notifying invocation itself stores it). For the climate
store the invariant fails, per the counterexample. -/
theorem live_last_notified_was_stored (tr : List (Entry ℚ)) (h : liveTrace tr) :
    ∀ e ∈ tr, ∀ v : ℚ, e.last_notified_temp = some v →
      ∃ e2 ∈ tr, e2.temp = some v := by
  induction h with
  | base =>
    intro e he v hv
    simp only [List.mem_singleton] at he
    subst he
    simp [init_entry] at hv
  | step e0 tr0 cur now hprev ih =>
    intro e he v hv
    rcases List.mem_cons.mp he with rfl | hmem
    · cases cur with
      | none =>
        obtain ⟨e2, he2, hv2⟩ := ih e0 (List.mem_cons_self _ _) v hv
        exact ⟨e2, List.mem_cons_of_mem _ he2, hv2⟩
      | some c =>
        rcases (live_step_cases e0 c now).2 with hc | hc
        · refine ⟨(notify_temperature_change e0 (some c) now).1, List.mem_cons_self _ _, ?_⟩
          have hcv : c = v := by rw [hc] at hv; exact Option.some.inj hv
          rw [(live_step_cases e0 c now).1, hcv]
        · obtain ⟨e2, he2, hv2⟩ := ih e0 (List.mem_cons_self _ _) v (hc ▸ hv)
          exact ⟨e2, List.mem_cons_of_mem _ he2, hv2⟩
    · obtain ⟨e2, he2, hv2⟩ := ih e hmem v hv
      exact ⟨e2, List.mem_cons_of_mem _ he2, hv2⟩

/-- C3 witness: the amended invariant applied to the concrete live trace of
readings 70 at time 0 and 75 at time 60, whose head has
`last_notified_temp = some 75`. -/
theorem live_last_notified_was_stored_witness :
    ∃ e2 ∈ [(notify_temperature_change
        (notify_temperature_change init_entry (some 70) 0).1 (some 75) 60).1,
      (notify_temperature_change init_entry (some 70) 0).1,
      (init_entry : Entry ℚ)], e2.temp = some 75 :=
  live_last_notified_was_stored _
    (liveTrace.step _ _ _ _ (liveTrace.step _ _ _ _ liveTrace.base))
    _ (List.mem_cons_self _ _) 75 (by decide)

/-- C4 counterexample: the live window is not strictly longer than the
climate window — both are `timedelta(minutes=5)`, source lines 304 and 344. -/
theorem window_not_longer_cex :
    notifyWindow_live = notifyWindow_climate ∧
    ¬ notifyWindow_climate < notifyWindow_live := by decide

/-- C4 (amended): the two detectors use the same 5-minute (300-second)
window; in each detector that single constant is the gate for both the
notification and the display annotation. -/
theorem windows_equal_amended :
    notifyWindow_live = 5 * 60 ∧ notifyWindow_climate = 5 * 60 ∧
    notifyWindow_live = notifyWindow_climate := by decide

/-- C5: for the dedupe-enabled live detector, an in-window strict increase
to exactly `last_notified_temp` sends no notification but still returns the
non-empty suffix naming the prior value and the elapsed whole minutes, and
keeps `last_notified_temp`, on every such cycle. -/
theorem dedupe_still_annotates (e : Entry ℚ) (pt v : ℚ) (pts now : Int)
    (h1 : e.temp = some pt) (h2 : e.timestamp = some pts) (h3 : pt < v)
    (h4 : now - pts ≤ notifyWindow_live) (h5 : e.last_notified_temp = some v) :
    (notify_temperature_change e (some v) now).2.2 = none ∧
    (notify_temperature_change e (some v) now).2.1
      = increase_suffix pt (Int.fdiv (now - pts) 60) ∧
    (notify_temperature_change e (some v) now).2.1 ≠ "" ∧
    (notify_temperature_change e (some v) now).1.last_notified_temp = some v :=
  live_dedupe_aux e pt v pts now h1 h2 h3 h4 h5

/-- C5 witness: the dedupe statement at a concrete entry and reading. -/
theorem dedupe_still_annotates_witness :
    (notify_temperature_change ⟨some 70, some 0, some 75⟩ (some 75) 60).2.2 = none ∧
    (notify_temperature_change ⟨some 70, some 0, some 75⟩ (some 75) 60).2.1
      = increase_suffix 70 (Int.fdiv (60 - 0) 60) ∧
    (notify_temperature_change ⟨some 70, some 0, some 75⟩ (some 75) 60).2.1 ≠ "" ∧
    (notify_temperature_change ⟨some 70, some 0, some 75⟩
        (some 75) 60).1.last_notified_temp = some 75 :=
  dedupe_still_annotates ⟨some 70, some 0, some 75⟩ 70 75 0 60
    rfl rfl (by decide) (by decide) rfl

/-- C6: the three specified parses of a first MAXIMUM line — colon insertion
into "736", preservation of "1:44", and an absent time (with the temperature
still captured) when the fourth token is not AM/PM. -/
theorem climate_time_parsing_examples :
    fetch_climate_report ["MAXIMUM 74 736 AM"] = (some "74", some "7:36 AM") ∧
    fetch_climate_report ["MAXIMUM 68 1:44 PM"] = (some "68", some "1:44 PM") ∧
    fetch_climate_report ["MAXIMUM 74 736 EST"] = (some "74", none) := by decide

/-- C7 counterexample: a first line that merely contains the word MAXIMUM
(not as its first token) terminates the search — the overall parse returns
nothing even though the next line is a perfectly parsable MAXIMUM line. -/
theorem substring_line_terminates_cex :
    fetch_climate_report ["THE MAXIMUM WAS RECORDED EARLY", "MAXIMUM 74 736 AM"]
      = (none, none) ∧
    fetch_climate_report ["MAXIMUM 74 736 AM"] = (some "74", some "7:36 AM") := by decide

/-- C7 (amended): the result is extracted from exactly the first line that
contains the substring "MAXIMUM" (case-insensitively); lines before it are
ignored, lines after it are never examined, and that first containing line
yields a temperature only if it additionally has more than three tokens,
begins with the token MAXIMUM and has a numeric second token. -/
theorem first_containing_line_amended (pre : List String) (l : String) (post : List String)
    (hpre : ∀ p ∈ pre, containsMaximum p = false)
    (hl : containsMaximum l = true) :
    fetch_climate_report (pre ++ l :: post) = parse_max_line l := by
  induction pre with
  | nil => simp [fetch_climate_report, hl]
  | cons p ps ih =>
    have hp : containsMaximum p = false := hpre p (List.mem_cons_self _ _)
    simp only [List.cons_append, fetch_climate_report, hp, Bool.false_eq_true, if_false]
    exact ih (fun q hq => hpre q (List.mem_cons_of_mem _ hq))

/-- C7 witness: the amended statement on a concrete three-line report. -/
theorem first_containing_line_amended_witness :
    fetch_climate_report (["WEATHER SUMMARY"] ++ "MAXIMUM 74 736 AM" :: ["MINIMUM 50 615 AM"])
      = parse_max_line "MAXIMUM 74 736 AM" :=
  first_containing_line_amended ["WEATHER SUMMARY"] "MAXIMUM 74 736 AM" ["MINIMUM 50 615 AM"]
    (by decide) (by decide)

/-- C8: on an unparsable reading each detector is a no-op — it returns the
entry unchanged, the empty annotation and no notification (hence feeding the
same absent reading repeatedly never mutates history and never notifies). -/
theorem unparsable_noop :
    (∀ (e : Entry ℚ) (now : Int), notify_temperature_change e none now = (e, "", none)) ∧
    (∀ (ec : Entry Int) (cur : Option String) (now : Int), pyIntOfOptStr cur = none →
      notify_climate_temperature_change ec cur now = (ec, "", none)) := by
  constructor
  · intro e now; rfl
  · intro ec cur now h
    simp only [notify_climate_temperature_change, h]

/-- C8 witness: the no-op statement at a concrete entry, a non-numeric live
reading and the unparsable climate string "7.4". -/
theorem unparsable_noop_witness :
    notify_temperature_change ⟨some 70, some 0, none⟩ none 50
      = (⟨some 70, some 0, none⟩, "", none) ∧
    notify_climate_temperature_change ⟨some 70, some 0, none⟩ (some "7.4") 50
      = (⟨some 70, some 0, none⟩, "", none) :=
  ⟨unparsable_noop.1 ⟨some 70, some 0, none⟩ 50,
   unparsable_noop.2 ⟨some 70, some 0, none⟩ (some "7.4") 50 (by decide)⟩

/-- C9: both detectors treat a non-positive elapsed time as within the
window: for a strict in-window increase, the notification outcome at
elapsed `now - pts ≤ 0` equals the outcome at any small positive elapsed
time, and the live annotation is produced. -/
theorem nonpositive_elapsed_in_window :
    (∀ (e : Entry ℚ) (pt v : ℚ) (pts now now2 : Int),
      e.temp = some pt → e.timestamp = some pts → pt < v →
      now - pts ≤ 0 → 0 < now2 - pts → now2 - pts ≤ notifyWindow_live →
      ((notify_temperature_change e (some v) now).2.2
          = (notify_temperature_change e (some v) now2).2.2 ∧
       (notify_temperature_change e (some v) now).2.1 ≠ "")) ∧
    (∀ (ec : Entry Int) (pt v : Int) (s : Option String) (pts now now2 : Int),
      ec.temp = some pt → ec.timestamp = some pts → pyIntOfOptStr s = some v → pt < v →
      now - pts ≤ 0 → 0 < now2 - pts → now2 - pts ≤ notifyWindow_climate →
      (notify_climate_temperature_change ec s now).2.2
          = (notify_climate_temperature_change ec s now2).2.2) := by
  constructor
  · intro e pt v pts now now2 h1 h2 h3 h4 h5 h6
    have h4' : now - pts ≤ notifyWindow_live := by
      have hw : (0:Int) ≤ notifyWindow_live := by decide
      omega
    have hne := increase_suffix_ne_empty pt (Int.fdiv (now - pts) 60)
    simp only [notify_temperature_change, h1, h2]
    by_cases hd : some v = e.last_notified_temp
    · simp [h3, h4', h6, hd, hne]
    · simp [h3, h4', h6, hd, hne]
  · intro ec pt v s pts now now2 h1 h2 hs h3 h4 h5 h6
    have h4' : now - pts ≤ notifyWindow_climate := by
      have hw : (0:Int) ≤ notifyWindow_climate := by decide
      omega
    simp only [notify_climate_temperature_change, hs, h1, h2]
    by_cases hd : some v = ec.last_notified_temp
    · simp [h3, h4', h6, hd]
    · simp [h3, h4', h6, hd]

/-- C9 witness: the non-positive-elapsed statement at concrete entries
(stored time 100, clock reading 50, so elapsed is -50) against the positive
elapsed 60. -/
theorem nonpositive_elapsed_in_window_witness :
    ((notify_temperature_change ⟨some 70, some 100, none⟩ (some 75) 50).2.2
        = (notify_temperature_change ⟨some 70, some 100, none⟩ (some 75) 160).2.2 ∧
     (notify_temperature_change ⟨some 70, some 100, none⟩ (some 75) 50).2.1 ≠ "") ∧
    (notify_climate_temperature_change ⟨some 70, some 100, none⟩ (some "75") 50).2.2
        = (notify_climate_temperature_change ⟨some 70, some 100, none⟩ (some "75") 160).2.2 :=
  ⟨nonpositive_elapsed_in_window.1 ⟨some 70, some 100, none⟩ 70 75 100 50 160
      rfl rfl (by decide) (by decide) (by decide) (by decide),
   nonpositive_elapsed_in_window.2 ⟨some 70, some 100, none⟩ 70 75 (some "75") 100 50 160
      rfl rfl (by decide) (by decide) (by decide) (by decide) (by decide)⟩

/-- C10: in a main-loop cycle the climate detector runs for a city only when
the parsed report yields both a (truthy) max temperature and a (truthy)
time; otherwise the climate entry is untouched and no climate notification
fires that cycle. -/
theorem main_climate_gate :
    (∀ (entry : Entry Int) (lines : List String) (now : Int),
      (pyTruthy (fetch_climate_report lines).1 = false ∨
       pyTruthy (fetch_climate_report lines).2 = false) →
      main_climate_step entry lines now = (entry, "", none)) ∧
    (∀ (entry : Entry Int) (lines : List String) (now : Int),
      pyTruthy (fetch_climate_report lines).1 = true →
      pyTruthy (fetch_climate_report lines).2 = true →
      main_climate_step entry lines now
        = notify_climate_temperature_change entry (fetch_climate_report lines).1 now) := by
  constructor
  · intro entry lines now h
    rcases h with h | h <;> simp [main_climate_step, h]
  · intro entry lines now h1 h2
    simp [main_climate_step, h1, h2]

/-- C10 witness: a report whose MAXIMUM line has temperature but no AM/PM
time leaves the entry untouched; a fully parsed report reaches the climate
detector. -/
theorem main_climate_gate_witness :
    main_climate_step ⟨some 70, some 0, none⟩ ["MAXIMUM 74 736 EST"] 60
      = (⟨some 70, some 0, none⟩, "", none) ∧
    main_climate_step ⟨some 70, some 0, none⟩ ["MAXIMUM 74 736 AM"] 60
      = notify_climate_temperature_change ⟨some 70, some 0, none⟩
          (fetch_climate_report ["MAXIMUM 74 736 AM"]).1 60 :=
  ⟨main_climate_gate.1 ⟨some 70, some 0, none⟩ ["MAXIMUM 74 736 EST"] 60 (Or.inr (by decide)),
   main_climate_gate.2 ⟨some 70, some 0, none⟩ ["MAXIMUM 74 736 AM"] 60 (by decide) (by decide)⟩

end WeatherMax
